import Mathlib

/-!
Verification of `models/model_choice.py` from the geo-deep-learning
repository: the checkpoint loader `load_checkpoint` and the model factory
`net`, shallowly embedded in Lean.  Python dictionaries holding arbitrary
values are modelled by the `PyVal` type; the external collaborators
(`torch.load`, the torchvision pretrained model zoo) are abstracted into an
environment record `Env`; the constructed network objects are modelled by
the `Model` description type, which records the constructor and its
arguments rather than the tensors themselves.
-/

/-- Model of a deserialized Python value as it appears in configuration
dictionaries and checkpoints: `None`, booleans, integers, strings, the one
floating-point literal `1.0` occurring in the code (kept opaque), opaque
tensors identified by a tag, and string-keyed dictionaries. -/
inductive PyVal where
  | none : PyVal
  | bool (b : Bool) : PyVal
  | int (n : Int) : PyVal
  | str (s : String) : PyVal
  | floatOne : PyVal
  | tensor (id : Nat) : PyVal
  | dict (entries : List (String × PyVal)) : PyVal

/-- A Python dictionary with string keys, as an association list preserving
insertion order (the order of `dict.items()`). -/
abbrev PyDict := List (String × PyVal)

/-- Membership test of a key in a dictionary, modelling `k in d.keys()`. -/
def hasKey (d : PyDict) (k : String) : Bool :=
  (d.map Prod.fst).contains k

/-- Errors that can escape the checkpoint loader: a `FileNotFoundError`
carrying its message, or any other exception (deserialization failure,
attribute error, ...), also carrying its message. -/
inductive LoadErr where
  | fileNotFound (msg : String) : LoadErr
  | other (msg : String) : LoadErr

/-- Errors that can escape the factory `net`: a failed `assert`
(band-count check), a `ValueError` (unknown model name), or an error
propagated from `load_checkpoint`. -/
inductive NetErr where
  | assertionError (msg : String) : NetErr
  | valueError (msg : String) : NetErr
  | loadErr (e : LoadErr) : NetErr

/-- The supported network architectures, one per dispatch branch of `net`. -/
inductive Arch where
  | unetsmall | unet | ternausnet | checkpointed_unet | inception
  | fcn_resnet101 | deeplabv3_resnet101
deriving DecidableEq

/-- Description of a constructed network object.  The base constructors
record the constructor calls of the Python code with their arguments
(`dropout` and `dropout_prob` are passed through uninterpreted); the
`pretrained` flag on the torchvision constructors records the `pretrained=`
keyword argument.  `loadStateDictNonStrict m sd` is the model `m` after
`m.load_state_dict(sd, strict=False)`; `swapCoordconv` is the result of
`coordconv.swap_coordconv_layers` with the given parameters. -/
inductive Model where
  | unetSmall (classes : Int) (bands : Int) (dropout dropout_prob : PyVal) : Model
  | unet (classes : Int) (bands : Int) (dropout dropout_prob : PyVal) : Model
  | ternausnet (classes : Int) : Model
  | checkpointedUnetSmall (classes : Int) (bands : Int) (dropout dropout_prob : PyVal) : Model
  | inception3 (classes : Int) (bands : Int) : Model
  | fcn_resnet101 (pretrained : Bool) (classes : Int) : Model
  | deeplabv3_resnet101 (pretrained : Bool) (classes : Int) : Model
  | loadStateDictNonStrict (m : Model) (sd : PyDict) : Model
  | swapCoordconv (m : Model) (centered normalized : Bool) (noise : PyVal)
      (radius_channel : Bool) (scale : PyVal) : Model

/-- Number of output classes a constructed model expects: the `classes`
argument of the underlying constructor (a non-strict state-dict load and a
coordconv swap keep the class count of the wrapped model). -/
def Model.classes : Model → Int
  | .unetSmall c _ _ _ => c
  | .unet c _ _ _ => c
  | .ternausnet c => c
  | .checkpointedUnetSmall c _ _ _ => c
  | .inception3 c _ => c
  | .fcn_resnet101 _ c => c
  | .deeplabv3_resnet101 _ c => c
  | .loadStateDictNonStrict m _ => m.classes
  | .swapCoordconv m _ _ _ _ _ => m.classes

/-- Architecture of a constructed model. -/
def Model.arch : Model → Arch
  | .unetSmall _ _ _ _ => Arch.unetsmall
  | .unet _ _ _ _ => Arch.unet
  | .ternausnet _ => Arch.ternausnet
  | .checkpointedUnetSmall _ _ _ _ => Arch.checkpointed_unet
  | .inception3 _ _ => Arch.inception
  | .fcn_resnet101 _ _ => Arch.fcn_resnet101
  | .deeplabv3_resnet101 _ _ => Arch.deeplabv3_resnet101
  | .loadStateDictNonStrict m _ => m.arch
  | .swapCoordconv m _ _ _ _ _ => m.arch

/-- The `global` section of the configuration dictionary, with the keys the
factory reads.  The `coordconv_*` keys are optional (`none` models a key
absent from the dictionary, read through `get_key_def`). -/
structure GlobalParams where
  model_name : String
  num_classes : Int
  number_of_bands : Int
  coordconv_convert : Option Bool := Option.none
  coordconv_centered : Option Bool := Option.none
  coordconv_normalized : Option Bool := Option.none
  coordconv_noise : Option PyVal := Option.none
  coordconv_radius_channel : Option Bool := Option.none
  coordconv_scale : Option PyVal := Option.none

/-- The `training` section of the configuration dictionary.  The state-dict
path is a string; the Python truthiness test on it holds exactly when the
string is nonempty. -/
structure TrainingParams where
  dropout : PyVal
  dropout_prob : PyVal
  state_dict_path : String

/-- The `inference` section of the configuration dictionary. -/
structure InferenceParams where
  state_dict_path : String

/-- The whole configuration dictionary `net_params`. -/
structure NetParams where
  global : GlobalParams
  training : TrainingParams
  inference : InferenceParams

/-- Modelled from the spec: `get_key_def` (`utils.utils.get_key_def`, not
included under src) is the configuration-key-lookup-with-default utility:
it returns the stored value when the key is present and the default
otherwise. -/
def get_key_def {α : Type} (v : Option α) (default : α) : α :=
  v.getD default

/-- Prefix test on strings via their character lists (structurally
recursive, so concrete evaluation unfolds): `py_startswith p s` holds when
`p` is a prefix of `s`, the Python `s.startswith(p)`. -/
def py_startswith (p s : String) : Bool :=
  p.data.isPrefixOf s.data

/-- Modelled from the spec: `chop_layer` (`utils.utils.chop_layer`, not
included under src) is the state-dict-surgery utility that discards the
entries of the named layers from a state dictionary before transfer (here
the entries of the incompatible final layer `classifier.4`, such as
`classifier.4.weight`). -/
def chop_layer (pretrained_dict : PyDict) (layer_names : List String) : PyDict :=
  pretrained_dict.filter (fun kv => !(layer_names.any (fun ln => py_startswith ln kv.1)))

/-- The external collaborators of the file, abstracted: `torch_load` models
`torch.load` on a path (the `map_location` choice does not change the
deserialized value), returning the deserialized value or the exception it
raises; `zoo_state_dict a n` models the state dictionary of the torchvision
pretrained model of architecture `a` built with `num_classes=n`
(`models.segmentation.fcn_resnet101(pretrained=True, ...).state_dict()` and
its deeplabv3 counterpart). -/
structure Env where
  torch_load : String → Except LoadErr PyVal
  zoo_state_dict : Arch → Int → PyDict

/-- Model of the Python string method `lower` (the code calls
`model_name.lower()`), written with a structurally recursive character map
so that concrete evaluation unfolds; it is the same function as Lean's
`String.toLower` (theorem `py_lower_eq_toLower` below). -/
def py_lower (s : String) : String :=
  ⟨s.data.map Char.toLower⟩

/-- Embedding of `load_checkpoint` (src/models/model_choice.py, lines
9-27): deserialize the file at `filename`; if the result lacks a top-level
`model` key, wrap the entire mapping under a fresh `model` key; re-raise a
`FileNotFoundError` with a descriptive message, and let every other error
propagate.  Calling `.keys()` on a non-dictionary deserialized value raises
an `AttributeError`, modelled as `LoadErr.other`. -/
def load_checkpoint (env : Env) (filename : String) : Except LoadErr PyDict :=
  match env.torch_load filename with
  | Except.error (LoadErr.fileNotFound _) =>
      Except.error (LoadErr.fileNotFound ("=> No model found at " ++ filename))
  | Except.error (LoadErr.other m) => Except.error (LoadErr.other m)
  | Except.ok (PyVal.dict checkpoint) =>
      if hasKey checkpoint "model" then Except.ok checkpoint
      else Except.ok [("model", PyVal.dict checkpoint)]
  | Except.ok _ =>
      Except.error (LoadErr.other "AttributeError: object has no attribute keys")

/-- The warning message emitted when `num_classes == 1` (text abridged). -/
def num_classes_warning : String :=
  "config specified that number of classes is 1, but model will be instantiated with a minimum of two regardless"

/-- The assertion message `msg` of the band-count checks. -/
def bands_msg : String :=
  "Number of bands specified incompatible with this model. Requires 3 band data."

/-- The class count actually used by the factory: a requested count of 1 is
coerced to 2 (lines 35-37 of src/models/model_choice.py). -/
def effective_num_classes (n : Int) : Int :=
  if n = 1 then 2 else n

/-- Warnings emitted by a call to `net` (via `warnings.warn`), as a list:
exactly one diagnostic when the configured class count is 1.  The warning
is emitted before any construction, so it happens whether or not the call
later fails. -/
def net_warnings (net_params : NetParams) : List String :=
  if net_params.global.num_classes = 1 then [num_classes_warning] else []

/-- Embedding of the dispatch chain of `net` (lines 40-83): select and
build the network variant by matching the lowercased model name, checking
the band-count assertions first in the branches that have them.  For the
two torchvision variants, the pretrained 21-class model is built, its state
dictionary is chopped of the `classifier.4` entries, and the result is
loaded non-strictly into a freshly built (non-pretrained) model. -/
def construct_model (env : Env) (net_params : NetParams) : Except NetErr Model :=
  let model_name := py_lower net_params.global.model_name
  let num_classes := effective_num_classes net_params.global.num_classes
  if model_name = "unetsmall" then
    Except.ok (Model.unetSmall num_classes net_params.global.number_of_bands
      net_params.training.dropout net_params.training.dropout_prob)
  else if model_name = "unet" then
    Except.ok (Model.unet num_classes net_params.global.number_of_bands
      net_params.training.dropout net_params.training.dropout_prob)
  else if model_name = "ternausnet" then
    if net_params.global.number_of_bands = 3 then
      Except.ok (Model.ternausnet num_classes)
    else Except.error (NetErr.assertionError bands_msg)
  else if model_name = "checkpointed_unet" then
    Except.ok (Model.checkpointedUnetSmall num_classes net_params.global.number_of_bands
      net_params.training.dropout net_params.training.dropout_prob)
  else if model_name = "inception" then
    Except.ok (Model.inception3 num_classes net_params.global.number_of_bands)
  else if model_name = "fcn_resnet101" then
    if net_params.global.number_of_bands = 3 then
      Except.ok (Model.loadStateDictNonStrict (Model.fcn_resnet101 false num_classes)
        (chop_layer (env.zoo_state_dict Arch.fcn_resnet101 21) ["classifier.4"]))
    else Except.error (NetErr.assertionError bands_msg)
  else if model_name = "deeplabv3_resnet101" then
    if net_params.global.number_of_bands = 3 then
      Except.ok (Model.loadStateDictNonStrict (Model.deeplabv3_resnet101 false num_classes)
        (chop_layer (env.zoo_state_dict Arch.deeplabv3_resnet101 21) ["classifier.4"]))
    else Except.error (NetErr.assertionError bands_msg)
  else
    Except.error (NetErr.valueError
      ("The model name " ++ model_name ++ " in the config.yaml is not defined."))

/-- Embedding of the coordconv block of `net` (lines 85-96): after
construction, when the `coordconv_convert` key is set and truthy, the model
is structurally transformed by `coordconv.swap_coordconv_layers` with the
configured parameters (defaults: centered and normalized true, noise
`None`, radius channel false, scale `1.0`); otherwise it is left as is. -/
def coordconv_wrap (net_params : NetParams) (model : Model) : Model :=
  if get_key_def net_params.global.coordconv_convert false then
    Model.swapCoordconv model
      (get_key_def net_params.global.coordconv_centered true)
      (get_key_def net_params.global.coordconv_normalized true)
      (get_key_def net_params.global.coordconv_noise PyVal.none)
      (get_key_def net_params.global.coordconv_radius_channel false)
      (get_key_def net_params.global.coordconv_scale PyVal.floatOne)
  else model

/-- The model-building half of `net` (lines 40-96): the dispatch chain
followed by the optional coordconv transformation. -/
def build_model (env : Env) (net_params : NetParams) : Except NetErr Model :=
  match construct_model env net_params with
  | Except.error e => Except.error e
  | Except.ok model => Except.ok (coordconv_wrap net_params model)

/-- Embedding of the checkpoint-resolution block of `net` (lines 98-104):
a truthy training state-dict path takes precedence and is loaded; else,
under `inference`, the inference state-dict path is loaded; else no
checkpoint. -/
def resolve_checkpoint (env : Env) (net_params : NetParams) (inference : Bool) :
    Except NetErr (Option PyDict) :=
  if net_params.training.state_dict_path ≠ "" then
    match load_checkpoint env net_params.training.state_dict_path with
    | Except.ok checkpoint => Except.ok (some checkpoint)
    | Except.error e => Except.error (NetErr.loadErr e)
  else if inference then
    match load_checkpoint env net_params.inference.state_dict_path with
    | Except.ok checkpoint => Except.ok (some checkpoint)
    | Except.error e => Except.error (NetErr.loadErr e)
  else Except.ok Option.none

/-- Embedding of `net` (src/models/model_choice.py, lines 30-105): build
the model (dispatch, then optional coordconv swap), resolve the checkpoint,
and return the triple `(model, checkpoint, model_name)` with the lowercased
model name, exactly as the Python `return` statement does. -/
def net (env : Env) (net_params : NetParams) (inference : Bool := false) :
    Except NetErr (Model × Option PyDict × String) :=
  match build_model env net_params with
  | Except.error e => Except.error e
  | Except.ok model =>
      match resolve_checkpoint env net_params inference with
      | Except.error e => Except.error e
      | Except.ok checkpoint =>
          Except.ok (model, checkpoint, py_lower net_params.global.model_name)

/-- Turn an `Except` result into an `Option`, keeping the success value. -/
def exceptToOption {ε α : Type} : Except ε α → Option α
  | Except.ok a => some a
  | Except.error _ => Option.none

/-- The seven supported model names, lowercased, in dispatch order. -/
def supported_model_names : List String :=
  ["unetsmall", "unet", "ternausnet", "checkpointed_unet", "inception",
   "fcn_resnet101", "deeplabv3_resnet101"]

/-- The model names whose branch asserts exactly three input bands. -/
def band_constrained_names : List String :=
  ["ternausnet", "fcn_resnet101", "deeplabv3_resnet101"]

/-- The architecture selected for each supported lowercased model name. -/
def archFor : String → Option Arch
  | "unetsmall" => some Arch.unetsmall
  | "unet" => some Arch.unet
  | "ternausnet" => some Arch.ternausnet
  | "checkpointed_unet" => some Arch.checkpointed_unet
  | "inception" => some Arch.inception
  | "fcn_resnet101" => some Arch.fcn_resnet101
  | "deeplabv3_resnet101" => some Arch.deeplabv3_resnet101
  | _ => Option.none

/-- A concrete environment for witnesses: two loadable checkpoint files
(one lacking, one having a `model` key), everything else missing, and a
small zoo state dictionary with `classifier.4` entries. -/
def sample_env : Env where
  torch_load := fun fn =>
    if fn = "train.pth" then
      Except.ok (PyVal.dict [("weights", PyVal.tensor 1)])
    else if fn = "infer.pth" then
      Except.ok (PyVal.dict [("model", PyVal.dict [("w", PyVal.tensor 2)])])
    else Except.error (LoadErr.fileNotFound "missing")
  zoo_state_dict := fun _ _ =>
    [("backbone.conv1.weight", PyVal.tensor 3),
     ("classifier.4.weight", PyVal.tensor 4),
     ("classifier.4.bias", PyVal.tensor 5)]

/-- A concrete configuration: mixed-case unet, a truthy training path. -/
def sample_params : NetParams where
  global := { model_name := "UNet", num_classes := 4, number_of_bands := 3 }
  training :=
    { dropout := PyVal.bool false, dropout_prob := PyVal.floatOne,
      state_dict_path := "train.pth" }
  inference := { state_dict_path := "infer.pth" }

/-- The output of `net sample_env sample_params true`. -/
def sample_out : Model × Option PyDict × String :=
  (Model.unet 4 3 (PyVal.bool false) PyVal.floatOne,
   some [("model", PyVal.dict [("weights", PyVal.tensor 1)])], "unet")

/-- A concrete configuration with one class and an empty training path. -/
def sample_params2 : NetParams where
  global := { model_name := "unetsmall", num_classes := 1, number_of_bands := 4 }
  training :=
    { dropout := PyVal.bool true, dropout_prob := PyVal.floatOne,
      state_dict_path := "" }
  inference := { state_dict_path := "infer.pth" }

/-- The output of `net sample_env sample_params2 true`. -/
def sample_out2 : Model × Option PyDict × String :=
  (Model.unetSmall 2 4 (PyVal.bool true) PyVal.floatOne,
   some [("model", PyVal.dict [("w", PyVal.tensor 2)])], "unetsmall")

/-- A concrete configuration with an unsupported model name. -/
def sample_params3 : NetParams where
  global := { model_name := "ResNet50", num_classes := 4, number_of_bands := 3 }
  training :=
    { dropout := PyVal.bool false, dropout_prob := PyVal.floatOne,
      state_dict_path := "" }
  inference := { state_dict_path := "infer.pth" }

/-- A concrete configuration requesting coordconv conversion. -/
def sample_params4 : NetParams where
  global := { model_name := "Inception", num_classes := 5, number_of_bands := 2,
              coordconv_convert := some true }
  training :=
    { dropout := PyVal.bool false, dropout_prob := PyVal.floatOne,
      state_dict_path := "" }
  inference := { state_dict_path := "infer.pth" }

/-- The output of `net sample_env sample_params4 false`. -/
def sample_out4a : Model × Option PyDict × String :=
  (Model.swapCoordconv (Model.inception3 5 2) true true PyVal.none false PyVal.floatOne,
   Option.none, "inception")

/-- The output of `net sample_env sample_params4 true`. -/
def sample_out4b : Model × Option PyDict × String :=
  (Model.swapCoordconv (Model.inception3 5 2) true true PyVal.none false PyVal.floatOne,
   some [("model", PyVal.dict [("w", PyVal.tensor 2)])], "inception")

/-- A concrete configuration selecting the pretrained fcn backbone. -/
def sample_params5 : NetParams where
  global := { model_name := "FCN_ResNet101", num_classes := 3, number_of_bands := 3 }
  training :=
    { dropout := PyVal.bool false, dropout_prob := PyVal.floatOne,
      state_dict_path := "" }
  inference := { state_dict_path := "infer.pth" }

/-- The output of `net sample_env sample_params5 false`. -/
def sample_out5 : Model × Option PyDict × String :=
  (Model.loadStateDictNonStrict (Model.fcn_resnet101 false 3)
    [("backbone.conv1.weight", PyVal.tensor 3)],
   Option.none, "fcn_resnet101")

/-- A concrete configuration with a band-constrained variant and 4 bands. -/
def sample_params6 : NetParams where
  global := { model_name := "TernausNet", num_classes := 4, number_of_bands := 4 }
  training :=
    { dropout := PyVal.bool false, dropout_prob := PyVal.floatOne,
      state_dict_path := "" }
  inference := { state_dict_path := "infer.pth" }

theorem py_lower_eq_toLower (s : String) : py_lower s = s.toLower :=
  (String.map_eq Char.toLower s).symm

theorem net_ok_parts {env : Env} {p : NetParams} {i : Bool}
    {out : Model × Option PyDict × String} (h : net env p i = Except.ok out) :
    build_model env p = Except.ok out.1 ∧
    resolve_checkpoint env p i = Except.ok out.2.1 ∧
    out.2.2 = py_lower p.global.model_name := by
  unfold net at h
  split at h
  next e heq => cases h
  next model heq =>
    split at h
    next e heq2 => cases h
    next ck heq2 =>
      injection h with h1
      subst h1
      exact ⟨heq, heq2, rfl⟩

theorem resolve_checkpoint_ok {env : Env} {p : NetParams} {i : Bool}
    {o : Option PyDict} (h : resolve_checkpoint env p i = Except.ok o) :
    (p.training.state_dict_path ≠ "" →
      o = exceptToOption (load_checkpoint env p.training.state_dict_path)) ∧
    (p.training.state_dict_path = "" → i = true →
      o = exceptToOption (load_checkpoint env p.inference.state_dict_path)) ∧
    (p.training.state_dict_path = "" → i = false → o = Option.none) := by
  unfold resolve_checkpoint at h
  by_cases ht : p.training.state_dict_path = ""
  · rw [if_neg (by simp [ht])] at h
    cases i with
    | false =>
      rw [if_neg Bool.false_ne_true] at h
      injection h with h1
      subst h1
      exact ⟨fun hc => absurd ht hc, fun _ hc => absurd hc Bool.false_ne_true,
        fun _ _ => rfl⟩
    | true =>
      rw [if_pos rfl] at h
      split at h
      next ck heq =>
        injection h with h1
        subst h1
        refine ⟨fun hc => absurd ht hc, fun _ _ => ?_, fun _ hc => Bool.noConfusion hc⟩
        rw [heq]
        rfl
      next e heq => cases h
  · rw [if_pos ht] at h
    split at h
    next ck heq =>
      injection h with h1
      subst h1
      refine ⟨fun _ => ?_, fun hc => absurd hc ht, fun hc => absurd hc ht⟩
      rw [heq]
      rfl
    next e heq => cases h

/-- C1: for every environment, configuration and inference flag, when `net`
succeeds its returned checkpoint follows the resolution precedence: a
nonempty (truthy) training state-dict path is loaded regardless of the
inference flag; otherwise, under `inference`, the inference state-dict path
is loaded; otherwise no checkpoint is returned. -/
theorem net_checkpoint_precedence (env : Env) (p : NetParams) (inference : Bool)
    (out : Model × Option PyDict × String)
    (h : net env p inference = Except.ok out) :
    (p.training.state_dict_path ≠ "" →
      out.2.1 = exceptToOption (load_checkpoint env p.training.state_dict_path)) ∧
    (p.training.state_dict_path = "" → inference = true →
      out.2.1 = exceptToOption (load_checkpoint env p.inference.state_dict_path)) ∧
    (p.training.state_dict_path = "" → inference = false →
      out.2.1 = Option.none) :=
  resolve_checkpoint_ok (net_ok_parts h).2.1

/-- C10: the training-time override is decided by truthiness, not presence:
when the training state-dict path is the empty string (the falsy string
value), `net` treats it as absent — with `inference = true` the returned
checkpoint is loaded from the inference path, and with `inference = false`
no checkpoint is returned. -/
theorem net_falsy_training_path (env : Env) (p : NetParams) (inference : Bool)
    (out : Model × Option PyDict × String)
    (hp : p.training.state_dict_path = "")
    (h : net env p inference = Except.ok out) :
    (inference = true →
      out.2.1 = exceptToOption (load_checkpoint env p.inference.state_dict_path)) ∧
    (inference = false → out.2.1 = Option.none) :=
  ⟨fun hi => (resolve_checkpoint_ok (net_ok_parts h).2.1).2.1 hp hi,
   fun hi => (resolve_checkpoint_ok (net_ok_parts h).2.1).2.2 hp hi⟩

/-- C2: when the deserialized checkpoint dictionary has no `model` key,
`load_checkpoint` returns a dictionary whose `model` key holds the entire
original dictionary; when the deserialized dictionary already has a `model`
key, it is returned unchanged. -/
theorem load_checkpoint_model_shim (env : Env) (filename : String) (ck : PyDict)
    (h : env.torch_load filename = Except.ok (PyVal.dict ck)) :
    (hasKey ck "model" = false →
      load_checkpoint env filename = Except.ok [("model", PyVal.dict ck)]) ∧
    (hasKey ck "model" = true →
      load_checkpoint env filename = Except.ok ck) := by
  unfold load_checkpoint
  rw [h]
  constructor
  · intro hk
    simp [hk]
  · intro hk
    simp [hk]

/-- C7: `load_checkpoint` raises a descriptive not-found error exactly when
the underlying load reports that the path does not resolve to a file
(first conjunct: the two events coincide; second conjunct: the message is
the descriptive one built from the path), and any other load failure
propagates to the caller unmodified (third conjunct). -/
theorem load_checkpoint_error_contract (env : Env) (filename : String) :
    ((∃ m, load_checkpoint env filename = Except.error (LoadErr.fileNotFound m)) ↔
      (∃ m, env.torch_load filename = Except.error (LoadErr.fileNotFound m))) ∧
    (∀ m, env.torch_load filename = Except.error (LoadErr.fileNotFound m) →
      load_checkpoint env filename =
        Except.error (LoadErr.fileNotFound ("=> No model found at " ++ filename))) ∧
    (∀ m, env.torch_load filename = Except.error (LoadErr.other m) →
      load_checkpoint env filename = Except.error (LoadErr.other m)) := by
  unfold load_checkpoint
  cases ht : env.torch_load filename with
  | error e =>
    cases e with
    | fileNotFound m => simp
    | other m => simp
  | ok v =>
    cases v <;> simp
    intro x
    split <;> simp

theorem coordconv_wrap_classes (p : NetParams) (m : Model) :
    Model.classes (coordconv_wrap p m) = Model.classes m := by
  unfold coordconv_wrap
  split <;> rfl

theorem coordconv_wrap_arch (p : NetParams) (m : Model) :
    Model.arch (coordconv_wrap p m) = Model.arch m := by
  unfold coordconv_wrap
  split <;> rfl

theorem build_model_ok {env : Env} {p : NetParams} {m : Model}
    (h : build_model env p = Except.ok m) :
    ∃ m0, construct_model env p = Except.ok m0 ∧ m = coordconv_wrap p m0 := by
  unfold build_model at h
  split at h
  next e heq => cases h
  next m0 heq =>
    injection h with h1
    exact ⟨m0, heq, h1.symm⟩

theorem build_model_error {env : Env} {p : NetParams} {e : NetErr} :
    build_model env p = Except.error e ↔ construct_model env p = Except.error e := by
  unfold build_model
  constructor
  · intro h
    split at h
    next e2 heq =>
      injection h with h1
      subst h1
      exact heq
    next m0 heq => cases h
  · intro h
    rw [h]

theorem construct_model_unetsmall {env : Env} {p : NetParams}
    (hname : py_lower p.global.model_name = "unetsmall") :
    construct_model env p = Except.ok (Model.unetSmall
      (effective_num_classes p.global.num_classes) p.global.number_of_bands
      p.training.dropout p.training.dropout_prob) := by
  unfold construct_model
  rw [hname]
  rfl

theorem construct_model_ternausnet {env : Env} {p : NetParams}
    (hname : py_lower p.global.model_name = "ternausnet") :
    construct_model env p =
      if p.global.number_of_bands = 3 then
        Except.ok (Model.ternausnet (effective_num_classes p.global.num_classes))
      else Except.error (NetErr.assertionError bands_msg) := by
  unfold construct_model
  rw [hname]
  rfl

theorem construct_model_unet {env : Env} {p : NetParams}
    (hname : py_lower p.global.model_name = "unet") :
    construct_model env p = Except.ok (Model.unet
      (effective_num_classes p.global.num_classes) p.global.number_of_bands
      p.training.dropout p.training.dropout_prob) := by
  unfold construct_model
  rw [hname]
  rfl

theorem construct_model_checkpointed {env : Env} {p : NetParams}
    (hname : py_lower p.global.model_name = "checkpointed_unet") :
    construct_model env p = Except.ok (Model.checkpointedUnetSmall
      (effective_num_classes p.global.num_classes) p.global.number_of_bands
      p.training.dropout p.training.dropout_prob) := by
  unfold construct_model
  rw [hname]
  rfl

theorem construct_model_inception {env : Env} {p : NetParams}
    (hname : py_lower p.global.model_name = "inception") :
    construct_model env p = Except.ok (Model.inception3
      (effective_num_classes p.global.num_classes) p.global.number_of_bands) := by
  unfold construct_model
  rw [hname]
  rfl

theorem construct_model_fcn {env : Env} {p : NetParams}
    (hname : py_lower p.global.model_name = "fcn_resnet101") :
    construct_model env p =
      if p.global.number_of_bands = 3 then
        Except.ok (Model.loadStateDictNonStrict
          (Model.fcn_resnet101 false (effective_num_classes p.global.num_classes))
          (chop_layer (env.zoo_state_dict Arch.fcn_resnet101 21) ["classifier.4"]))
      else Except.error (NetErr.assertionError bands_msg) := by
  unfold construct_model
  rw [hname]
  rfl

theorem construct_model_deeplab {env : Env} {p : NetParams}
    (hname : py_lower p.global.model_name = "deeplabv3_resnet101") :
    construct_model env p =
      if p.global.number_of_bands = 3 then
        Except.ok (Model.loadStateDictNonStrict
          (Model.deeplabv3_resnet101 false (effective_num_classes p.global.num_classes))
          (chop_layer (env.zoo_state_dict Arch.deeplabv3_resnet101 21) ["classifier.4"]))
      else Except.error (NetErr.assertionError bands_msg) := by
  unfold construct_model
  rw [hname]
  rfl

theorem construct_model_unknown {env : Env} {p : NetParams}
    (h : py_lower p.global.model_name ∉ supported_model_names) :
    construct_model env p = Except.error (NetErr.valueError
      ("The model name " ++ py_lower p.global.model_name ++
        " in the config.yaml is not defined.")) := by
  simp only [supported_model_names, List.mem_cons, List.not_mem_nil, or_false, not_or] at h
  obtain ⟨h1, h2, h3, h4, h5, h6, h7⟩ := h
  unfold construct_model
  simp only [h1, h2, h3, h4, h5, h6, h7, if_false, ite_false]

theorem construct_model_zoo_congr {env env2 : Env} {p : NetParams}
    (hz : env.zoo_state_dict = env2.zoo_state_dict) :
    construct_model env p = construct_model env2 p := by
  unfold construct_model
  rw [hz]

theorem chop_layer_removes (sd : PyDict) (names : List String) :
    ∀ kv ∈ chop_layer sd names, ∀ ln ∈ names, py_startswith ln kv.1 = false := by
  intro kv hkv ln hln
  unfold chop_layer at hkv
  rw [List.mem_filter] at hkv
  have h2 := hkv.2
  simp only [Bool.not_eq_true', List.any_eq_false] at h2
  exact Bool.eq_false_iff.mpr (h2 ln hln)

theorem resolve_checkpoint_error_shape {env : Env} {p : NetParams} {i : Bool}
    {e : NetErr} (h : resolve_checkpoint env p i = Except.error e) :
    ∃ le, e = NetErr.loadErr le := by
  unfold resolve_checkpoint at h
  split at h
  · split at h
    next ck heq => cases h
    next e2 heq =>
      injection h with h1
      exact ⟨e2, h1.symm⟩
  · split at h
    · split at h
      next ck heq => cases h
      next e2 heq =>
        injection h with h1
        exact ⟨e2, h1.symm⟩
    · cases h

theorem construct_model_ok_inv {env : Env} {p : NetParams} {m : Model}
    (h : construct_model env p = Except.ok m) :
    Model.classes m = effective_num_classes p.global.num_classes ∧
    archFor (py_lower p.global.model_name) = some (Model.arch m) := by
  by_cases h1 : py_lower p.global.model_name = "unetsmall"
  · rw [construct_model_unetsmall h1] at h
    injection h with h2
    subst h2
    rw [h1]
    exact ⟨rfl, rfl⟩
  by_cases h2 : py_lower p.global.model_name = "unet"
  · rw [construct_model_unet h2] at h
    injection h with hx
    subst hx
    rw [h2]
    exact ⟨rfl, rfl⟩
  by_cases h3 : py_lower p.global.model_name = "ternausnet"
  · rw [construct_model_ternausnet h3] at h
    split at h
    · injection h with hx
      subst hx
      rw [h3]
      exact ⟨rfl, rfl⟩
    · cases h
  by_cases h4 : py_lower p.global.model_name = "checkpointed_unet"
  · rw [construct_model_checkpointed h4] at h
    injection h with hx
    subst hx
    rw [h4]
    exact ⟨rfl, rfl⟩
  by_cases h5 : py_lower p.global.model_name = "inception"
  · rw [construct_model_inception h5] at h
    injection h with hx
    subst hx
    rw [h5]
    exact ⟨rfl, rfl⟩
  by_cases h6 : py_lower p.global.model_name = "fcn_resnet101"
  · rw [construct_model_fcn h6] at h
    split at h
    · injection h with hx
      subst hx
      rw [h6]
      exact ⟨rfl, rfl⟩
    · cases h
  by_cases h7 : py_lower p.global.model_name = "deeplabv3_resnet101"
  · rw [construct_model_deeplab h7] at h
    split at h
    · injection h with hx
      subst hx
      rw [h7]
      exact ⟨rfl, rfl⟩
    · cases h
  · have hu : py_lower p.global.model_name ∉ supported_model_names := by
      simp [supported_model_names, h1, h2, h3, h4, h5, h6, h7]
    rw [construct_model_unknown hu] at h
    cases h

theorem net_of_build_ok {env : Env} {p : NetParams} {i : Bool} {m : Model}
    (hb : build_model env p = Except.ok m) :
    net env p i = (match resolve_checkpoint env p i with
      | Except.error e => Except.error e
      | Except.ok checkpoint =>
          Except.ok (m, checkpoint, py_lower p.global.model_name)) := by
  unfold net
  rw [hb]

/-- C4: when the configured class count is 1, `net` emits the diagnostic
warning and constructs the selected model with exactly 2 output classes;
for any other class count no warning is emitted and the configured value is
used unchanged. -/
theorem net_min_two_classes (env : Env) (p : NetParams) (inference : Bool)
    (out : Model × Option PyDict × String)
    (h : net env p inference = Except.ok out) :
    (p.global.num_classes = 1 →
      net_warnings p = [num_classes_warning] ∧ Model.classes out.1 = 2) ∧
    (p.global.num_classes ≠ 1 →
      net_warnings p = [] ∧ Model.classes out.1 = p.global.num_classes) := by
  obtain ⟨hb, -, -⟩ := net_ok_parts h
  obtain ⟨m0, hc, hm⟩ := build_model_ok hb
  have hclasses : Model.classes out.1 = effective_num_classes p.global.num_classes := by
    rw [hm, coordconv_wrap_classes]
    exact (construct_model_ok_inv hc).1
  constructor
  · intro h1
    refine ⟨by simp [net_warnings, h1], ?_⟩
    rw [hclasses, effective_num_classes, if_pos h1]
  · intro h1
    refine ⟨by simp [net_warnings, h1], ?_⟩
    rw [hclasses, effective_num_classes, if_neg h1]

/-- C8: on success, `net` has selected the unique variant matched by the
lowercased configured model name — the architecture of the returned model
is the one `archFor` associates to that lowercased name (whatever the
original letter case was) — and the third element of the returned tuple is
the lowercase-normalized model name. -/
theorem net_case_insensitive_selection (env : Env) (p : NetParams)
    (inference : Bool) (out : Model × Option PyDict × String)
    (h : net env p inference = Except.ok out) :
    out.2.2 = py_lower p.global.model_name ∧
    archFor (py_lower p.global.model_name) = some (Model.arch out.1) := by
  obtain ⟨hb, -, hname⟩ := net_ok_parts h
  obtain ⟨m0, hc, hm⟩ := build_model_ok hb
  refine ⟨hname, ?_⟩
  rw [hm, coordconv_wrap_arch]
  exact (construct_model_ok_inv hc).2

/-- C6: when the lowercased configured model name is not one of the seven
supported variants, `net` fails with the descriptive `ValueError` naming
the unknown model, and returns no model. -/
theorem net_unknown_model_name (env : Env) (p : NetParams) (inference : Bool)
    (h : py_lower p.global.model_name ∉ supported_model_names) :
    net env p inference = Except.error (NetErr.valueError
      ("The model name " ++ py_lower p.global.model_name ++
        " in the config.yaml is not defined.")) := by
  unfold net
  rw [build_model_error.mpr (construct_model_unknown h)]

/-- C5: for the band-constrained variants (ternausnet, fcn_resnet101,
deeplabv3_resnet101), a band count other than 3 makes `net` fail with the
descriptive assertion error, before any network is constructed for that
variant; with a band count of 3 the assertion branch is unreachable: no
assertion error can be returned. -/
theorem net_band_constraint (env : Env) (p : NetParams) (inference : Bool)
    (hmem : py_lower p.global.model_name ∈ band_constrained_names) :
    (p.global.number_of_bands ≠ 3 →
      net env p inference = Except.error (NetErr.assertionError bands_msg)) ∧
    (p.global.number_of_bands = 3 →
      ∀ e, net env p inference ≠ Except.error (NetErr.assertionError e)) := by
  simp only [band_constrained_names, List.mem_cons, List.not_mem_nil, or_false] at hmem
  constructor
  · intro hb
    have hcm : construct_model env p = Except.error (NetErr.assertionError bands_msg) := by
      rcases hmem with hn | hn | hn
      · rw [construct_model_ternausnet hn, if_neg hb]
      · rw [construct_model_fcn hn, if_neg hb]
      · rw [construct_model_deeplab hn, if_neg hb]
    unfold net
    rw [build_model_error.mpr hcm]
  · intro hb e
    have hcm : ∃ m0, construct_model env p = Except.ok m0 := by
      rcases hmem with hn | hn | hn
      · exact ⟨_, by rw [construct_model_ternausnet hn, if_pos hb]⟩
      · exact ⟨_, by rw [construct_model_fcn hn, if_pos hb]⟩
      · exact ⟨_, by rw [construct_model_deeplab hn, if_pos hb]⟩
    obtain ⟨m0, hcm⟩ := hcm
    have hbm : build_model env p = Except.ok (coordconv_wrap p m0) := by
      unfold build_model
      rw [hcm]
    intro hcontra
    rw [net_of_build_ok hbm] at hcontra
    split at hcontra
    next e2 heq =>
      injection hcontra with h1
      obtain ⟨le, hle⟩ := resolve_checkpoint_error_shape heq
      rw [h1] at hle
      exact NetErr.noConfusion hle
    next ck heq => cases hcontra

/-- C3: when coordconv conversion is requested, the model `net` returns is
the structural `swap_coordconv_layers` replacement (with the configured
parameters) of the model built by the dispatch chain — applied after
construction and before checkpoint resolution — and the returned model
never absorbs the returned checkpoint: it is identical across environments
that agree on the pretrained zoo but load arbitrary different checkpoints,
and across both values of the inference flag. -/
theorem net_coordconv_and_unmerged_checkpoint (env env2 : Env) (p : NetParams)
    (i i2 : Bool) (out out2 : Model × Option PyDict × String)
    (h : net env p i = Except.ok out) (h2 : net env2 p i2 = Except.ok out2)
    (hz : env.zoo_state_dict = env2.zoo_state_dict) :
    (get_key_def p.global.coordconv_convert false = true →
      ∃ m0, construct_model env p = Except.ok m0 ∧
        out.1 = Model.swapCoordconv m0
          (get_key_def p.global.coordconv_centered true)
          (get_key_def p.global.coordconv_normalized true)
          (get_key_def p.global.coordconv_noise PyVal.none)
          (get_key_def p.global.coordconv_radius_channel false)
          (get_key_def p.global.coordconv_scale PyVal.floatOne)) ∧
    out.1 = out2.1 := by
  obtain ⟨hb, -, -⟩ := net_ok_parts h
  obtain ⟨hb2, -, -⟩ := net_ok_parts h2
  obtain ⟨m0, hc, hm⟩ := build_model_ok hb
  obtain ⟨m02, hc2, hm2⟩ := build_model_ok hb2
  have hcc : construct_model env2 p = Except.ok m0 := by
    rw [← construct_model_zoo_congr hz]
    exact hc
  have hsame : m0 = m02 := by
    rw [hcc] at hc2
    injection hc2
  constructor
  · intro hflag
    refine ⟨m0, hc, ?_⟩
    rw [hm]
    unfold coordconv_wrap
    rw [if_pos hflag]
  · rw [hm, hm2, hsame]

/-- C9: for the pretrained-backbone variants, the model `net` returns (up
to the later coordconv wrapping) is the freshly constructed non-pretrained
network, non-strictly loaded with the state dictionary of the fixed
21-class pretrained zoo model from which every entry of the incompatible
final layer `classifier.4` has been chopped; no `classifier.4` entry
survives in the transferred dictionary. -/
theorem net_pretrained_backbone (env : Env) (p : NetParams) (inference : Bool)
    (out : Model × Option PyDict × String)
    (h : net env p inference = Except.ok out) :
    (py_lower p.global.model_name = "fcn_resnet101" →
      out.1 = coordconv_wrap p (Model.loadStateDictNonStrict
        (Model.fcn_resnet101 false (effective_num_classes p.global.num_classes))
        (chop_layer (env.zoo_state_dict Arch.fcn_resnet101 21) ["classifier.4"])) ∧
      ∀ kv ∈ chop_layer (env.zoo_state_dict Arch.fcn_resnet101 21) ["classifier.4"],
        py_startswith "classifier.4" kv.1 = false) ∧
    (py_lower p.global.model_name = "deeplabv3_resnet101" →
      out.1 = coordconv_wrap p (Model.loadStateDictNonStrict
        (Model.deeplabv3_resnet101 false (effective_num_classes p.global.num_classes))
        (chop_layer (env.zoo_state_dict Arch.deeplabv3_resnet101 21) ["classifier.4"])) ∧
      ∀ kv ∈ chop_layer (env.zoo_state_dict Arch.deeplabv3_resnet101 21) ["classifier.4"],
        py_startswith "classifier.4" kv.1 = false) := by
  obtain ⟨hb, -, -⟩ := net_ok_parts h
  obtain ⟨m0, hc, hm⟩ := build_model_ok hb
  constructor
  · intro hn
    rw [construct_model_fcn hn] at hc
    split at hc
    · injection hc with hx
      refine ⟨?_, fun kv hkv => chop_layer_removes _ _ kv hkv _ (by simp)⟩
      rw [hm, ← hx]
    · cases hc
  · intro hn
    rw [construct_model_deeplab hn] at hc
    split at hc
    · injection hc with hx
      refine ⟨?_, fun kv hkv => chop_layer_removes _ _ kv hkv _ (by simp)⟩
      rw [hm, ← hx]
    · cases hc

/-- Witness for C1 at a concrete input. -/
theorem net_checkpoint_precedence_witness :
    (sample_params.training.state_dict_path ≠ "" →
      sample_out.2.1 =
        exceptToOption (load_checkpoint sample_env sample_params.training.state_dict_path)) ∧
    (sample_params.training.state_dict_path = "" → true = true →
      sample_out.2.1 =
        exceptToOption (load_checkpoint sample_env sample_params.inference.state_dict_path)) ∧
    (sample_params.training.state_dict_path = "" → true = false →
      sample_out.2.1 = Option.none) :=
  net_checkpoint_precedence sample_env sample_params true sample_out (by rfl)

/-- Witness for C10 at a concrete input. -/
theorem net_falsy_training_path_witness :
    (true = true →
      sample_out2.2.1 =
        exceptToOption (load_checkpoint sample_env sample_params2.inference.state_dict_path)) ∧
    (true = false → sample_out2.2.1 = Option.none) :=
  net_falsy_training_path sample_env sample_params2 true sample_out2 (by rfl) (by rfl)

/-- Witness for C2 at a concrete input. -/
theorem load_checkpoint_model_shim_witness :
    (hasKey [("weights", PyVal.tensor 1)] "model" = false →
      load_checkpoint sample_env "train.pth" =
        Except.ok [("model", PyVal.dict [("weights", PyVal.tensor 1)])]) ∧
    (hasKey [("weights", PyVal.tensor 1)] "model" = true →
      load_checkpoint sample_env "train.pth" = Except.ok [("weights", PyVal.tensor 1)]) :=
  load_checkpoint_model_shim sample_env "train.pth" [("weights", PyVal.tensor 1)] (by rfl)

/-- Witness for C7 at a concrete input. -/
theorem load_checkpoint_error_contract_witness :
    ((∃ m, load_checkpoint sample_env "missing.pth" =
        Except.error (LoadErr.fileNotFound m)) ↔
      (∃ m, sample_env.torch_load "missing.pth" =
        Except.error (LoadErr.fileNotFound m))) ∧
    (∀ m, sample_env.torch_load "missing.pth" = Except.error (LoadErr.fileNotFound m) →
      load_checkpoint sample_env "missing.pth" =
        Except.error (LoadErr.fileNotFound ("=> No model found at " ++ "missing.pth"))) ∧
    (∀ m, sample_env.torch_load "missing.pth" = Except.error (LoadErr.other m) →
      load_checkpoint sample_env "missing.pth" = Except.error (LoadErr.other m)) :=
  load_checkpoint_error_contract sample_env "missing.pth"

/-- Witness for C4 at a concrete input with one configured class. -/
theorem net_min_two_classes_witness :
    (sample_params2.global.num_classes = 1 →
      net_warnings sample_params2 = [num_classes_warning] ∧
      Model.classes sample_out2.1 = 2) ∧
    (sample_params2.global.num_classes ≠ 1 →
      net_warnings sample_params2 = [] ∧
      Model.classes sample_out2.1 = sample_params2.global.num_classes) :=
  net_min_two_classes sample_env sample_params2 true sample_out2 (by rfl)

/-- Witness for C8 at a concrete mixed-case input. -/
theorem net_case_insensitive_selection_witness :
    sample_out.2.2 = py_lower sample_params.global.model_name ∧
    archFor (py_lower sample_params.global.model_name) = some (Model.arch sample_out.1) :=
  net_case_insensitive_selection sample_env sample_params true sample_out (by rfl)

/-- Witness for C6 at a concrete input. -/
theorem net_unknown_model_name_witness :
    net sample_env sample_params3 false = Except.error (NetErr.valueError
      ("The model name " ++ py_lower sample_params3.global.model_name ++
        " in the config.yaml is not defined.")) :=
  net_unknown_model_name sample_env sample_params3 false (by decide)

/-- Witness for C5 at a concrete input. -/
theorem net_band_constraint_witness :
    (sample_params6.global.number_of_bands ≠ 3 →
      net sample_env sample_params6 false =
        Except.error (NetErr.assertionError bands_msg)) ∧
    (sample_params6.global.number_of_bands = 3 →
      ∀ e, net sample_env sample_params6 false ≠
        Except.error (NetErr.assertionError e)) :=
  net_band_constraint sample_env sample_params6 false (by decide)

/-- Witness for C3 at a concrete input. -/
theorem net_coordconv_and_unmerged_checkpoint_witness :
    (get_key_def sample_params4.global.coordconv_convert false = true →
      ∃ m0, construct_model sample_env sample_params4 = Except.ok m0 ∧
        sample_out4a.1 = Model.swapCoordconv m0
          (get_key_def sample_params4.global.coordconv_centered true)
          (get_key_def sample_params4.global.coordconv_normalized true)
          (get_key_def sample_params4.global.coordconv_noise PyVal.none)
          (get_key_def sample_params4.global.coordconv_radius_channel false)
          (get_key_def sample_params4.global.coordconv_scale PyVal.floatOne)) ∧
    sample_out4a.1 = sample_out4b.1 :=
  net_coordconv_and_unmerged_checkpoint sample_env sample_env sample_params4
    false true sample_out4a sample_out4b (by rfl) (by rfl) rfl

/-- Witness for C9 at a concrete input. -/
theorem net_pretrained_backbone_witness :
    (py_lower sample_params5.global.model_name = "fcn_resnet101" →
      sample_out5.1 = coordconv_wrap sample_params5 (Model.loadStateDictNonStrict
        (Model.fcn_resnet101 false (effective_num_classes sample_params5.global.num_classes))
        (chop_layer (sample_env.zoo_state_dict Arch.fcn_resnet101 21) ["classifier.4"])) ∧
      ∀ kv ∈ chop_layer (sample_env.zoo_state_dict Arch.fcn_resnet101 21) ["classifier.4"],
        py_startswith "classifier.4" kv.1 = false) ∧
    (py_lower sample_params5.global.model_name = "deeplabv3_resnet101" →
      sample_out5.1 = coordconv_wrap sample_params5 (Model.loadStateDictNonStrict
        (Model.deeplabv3_resnet101 false (effective_num_classes sample_params5.global.num_classes))
        (chop_layer (sample_env.zoo_state_dict Arch.deeplabv3_resnet101 21) ["classifier.4"])) ∧
      ∀ kv ∈ chop_layer (sample_env.zoo_state_dict Arch.deeplabv3_resnet101 21) ["classifier.4"],
        py_startswith "classifier.4" kv.1 = false) :=
  net_pretrained_backbone sample_env sample_params5 false sample_out5 (by rfl)
